import Mathlib

/-!
Verification of the configuration core of the `roperator` crate
(`src/config.rs`): resource-type identity (`K8sType`), operator
configuration (`OperatorConfig` and its fluent setters), and the
service-account credential resolver (`ClientConfig::from_service_account`).

The Rust code is shallowly embedded: structs become structures, enums
become inductives, `HashMap<K8sType, ChildConfig>` becomes an association
list whose insert operation mirrors `HashMap::insert` (replace the value
for an existing key in place, otherwise add a new entry), and the
filesystem touched by `from_service_account` becomes an explicit map from
paths to optional contents.
-/

namespace Roperator

/-- `DEFAULT_TRACKING_LABEL_NAME` in `config.rs`. -/
def DEFAULT_TRACKING_LABEL_NAME : String := "app.kubernetes.io/instance"

/-- `DEFAULT_OWNERSHIP_LABEL_NAME` in `config.rs`. -/
def DEFAULT_OWNERSHIP_LABEL_NAME : String := "app.kubernetes.io/managed-by"

/-- `SERVICE_ACCOUNT_TOKEN_PATH` in `config.rs`. -/
def SERVICE_ACCOUNT_TOKEN_PATH : String :=
  "/var/run/secrets/kubernetes.io/serviceaccount/token"

/-- `SERVICE_ACCOUNT_CA_PATH` in `config.rs`. -/
def SERVICE_ACCOUNT_CA_PATH : String :=
  "/var/run/secrets/kubernetes.io/serviceaccount/ca.crt"

/-- `API_SERVER_HOSTNAME` in `config.rs`. -/
def API_SERVER_HOSTNAME : String := "kubernetes.default.svc"

/-- Rust enum `UpdateStrategy`. -/
inductive UpdateStrategy where
  | Recreate
  | Replace
  | OnDelete
  deriving DecidableEq, Repr

/-- Rust struct `ChildConfig`. -/
structure ChildConfig where
  update_strategy : UpdateStrategy
  deriving DecidableEq, Repr

/-- `ChildConfig::new`. -/
def ChildConfig.new (update_strategy : UpdateStrategy) : ChildConfig :=
  { update_strategy }

/-- `ChildConfig::recreate`. -/
def ChildConfig.recreate : ChildConfig := ChildConfig.new UpdateStrategy.Recreate

/-- `ChildConfig::replace`. -/
def ChildConfig.replace : ChildConfig := ChildConfig.new UpdateStrategy.Replace

/-- `ChildConfig::on_delete`. -/
def ChildConfig.on_delete : ChildConfig := ChildConfig.new UpdateStrategy.OnDelete

/-- Rust struct `K8sType` (`group`, `version`, `plural_kind`, `kind`, all
strings; equality and hashing are structural over all four fields). -/
structure K8sType where
  group : String
  version : String
  plural_kind : String
  kind : String
  deriving DecidableEq, Repr

/-- `K8sType::new(group, version, kind, plural_kind)`: stores the fields
verbatim. -/
def K8sType.new (group version kind plural_kind : String) : K8sType :=
  { group, version, kind, plural_kind }

/-- `K8sType::format_api_version`: `version` when the group is empty,
otherwise `"{group}/{version}"`. -/
def K8sType.format_api_version (t : K8sType) : String :=
  if t.group.isEmpty then t.version else t.group ++ "/" ++ t.version

/-- Helper `fn v1()` in `config.rs`. -/
def v1 : String := "v1"

/-- `K8sType::pod`. -/
def K8sType.pod : K8sType :=
  { group := "", version := v1, plural_kind := "pods", kind := "Pod" }

/-- `K8sType::service`. -/
def K8sType.service : K8sType :=
  { group := "", version := v1, plural_kind := "services", kind := "Service" }

/-- The `Display` impl for `K8sType`: `"{version}/{plural_kind}"` when the
group is empty, otherwise `"{group}/{version}/{plural_kind}"`. -/
def K8sType.displayFmt (t : K8sType) : String :=
  if t.group.isEmpty then
    t.version ++ "/" ++ t.plural_kind
  else
    t.group ++ "/" ++ t.version ++ "/" ++ t.plural_kind

/-- The entry list backing `HashMap<K8sType, ChildConfig>`. -/
abbrev ChildMap := List (K8sType × ChildConfig)

/-- `HashMap::insert`: when the key is already present, the stored value is
replaced in place (the old key is kept); otherwise a new entry is added. -/
def ChildMap.insert (m : ChildMap) (k : K8sType) (c : ChildConfig) : ChildMap :=
  if m.any (fun p => p.1 = k) then
    m.map (fun p => if p.1 = k then (p.1, c) else p)
  else
    m ++ [(k, c)]

/-- `HashMap::get` on the entry list: the value of the first entry whose key
equals `k`. -/
def ChildMap.get (m : ChildMap) (k : K8sType) : Option ChildConfig :=
  (m.find? (fun p => p.1 = k)).map Prod.snd

/-- Number of entries of the map whose key equals `k`. -/
def ChildMap.keyCount (m : ChildMap) (k : K8sType) : Nat :=
  m.countP (fun p => p.1 = k)

/-- Rust struct `OperatorConfig`. -/
structure OperatorConfig where
  parent : K8sType
  child_types : ChildMap
  «namespace» : Option String
  operator_name : String
  tracking_label_name : String
  ownership_label_name : String
  server_port : Nat
  expose_metrics : Bool
  expose_health : Bool
  deriving DecidableEq, Repr

/-- `OperatorConfig::new(operator_name, parent)`. -/
def OperatorConfig.new (operator_name : String) (parent : K8sType) : OperatorConfig :=
  { parent
    operator_name
    child_types := []
    «namespace» := none
    tracking_label_name := DEFAULT_TRACKING_LABEL_NAME
    ownership_label_name := DEFAULT_OWNERSHIP_LABEL_NAME
    server_port := 8080
    expose_metrics := true
    expose_health := true }

/-- `OperatorConfig::within_namespace`. -/
def OperatorConfig.within_namespace (cfg : OperatorConfig) (ns : String) : OperatorConfig :=
  { cfg with «namespace» := some ns }

/-- `OperatorConfig::with_child`. -/
def OperatorConfig.with_child (cfg : OperatorConfig) (child_type : K8sType)
    (config : ChildConfig) : OperatorConfig :=
  { cfg with child_types := cfg.child_types.insert child_type config }

/-- The fluent setter `OperatorConfig::expose_health`. -/
def OperatorConfig.set_expose_health (cfg : OperatorConfig) (expose_health : Bool) :
    OperatorConfig :=
  { cfg with expose_health }

/-- The fluent setter `OperatorConfig::expose_metrics`. -/
def OperatorConfig.set_expose_metrics (cfg : OperatorConfig) (expose_metrics : Bool) :
    OperatorConfig :=
  { cfg with expose_metrics }

/-- The fluent setter `OperatorConfig::server_port`. -/
def OperatorConfig.set_server_port (cfg : OperatorConfig) (port : Nat) : OperatorConfig :=
  { cfg with server_port := port }

/-- Rust enum `CAData`. -/
inductive CAData where
  | File (path : String)
  | Contents (pem : String)
  deriving DecidableEq, Repr

/-- Rust enum `Credentials`. -/
inductive Credentials where
  | Header (value : String)
  | Pem (certificate_base64 : String) (private_key_base64 : String)
  deriving DecidableEq, Repr

/-- Rust struct `ClientConfig`. -/
structure ClientConfig where
  api_server_endpoint : String
  credentials : Credentials
  ca_data : Option CAData
  user_agent : String
  verify_ssl_certs : Bool
  impersonate : Option String
  impersonate_groups : List String
  deriving DecidableEq, Repr

/-- The filesystem visible to `from_service_account`: a map from paths to the
contents of the file at that path, `none` when no such file exists. -/
structure FileSystem where
  files : String → Option String

/-- The I/O error produced in this model: `File::open` on a missing path
yields a "not found" error. -/
inductive IoErrorKind where
  | notFound
  deriving DecidableEq, Repr

/-- `ClientConfig::from_service_account`, with the filesystem explicit:
open and read the token file (propagating the I/O error if it is missing),
check the CA file path for existence, and assemble the `ClientConfig`. -/
def from_service_account (fs : FileSystem) (user_agent : String) :
    Except IoErrorKind ClientConfig :=
  match fs.files SERVICE_ACCOUNT_TOKEN_PATH with
  | none => Except.error IoErrorKind.notFound
  | some service_account_token =>
    let ca_data :=
      if (fs.files SERVICE_ACCOUNT_CA_PATH).isSome then
        some (CAData.File SERVICE_ACCOUNT_CA_PATH)
      else
        none
    let api_server_endpoint := "https://" ++ API_SERVER_HOSTNAME
    Except.ok
      { api_server_endpoint
        ca_data
        credentials := Credentials.Header ("Bearer " ++ service_account_token)
        user_agent
        verify_ssl_certs := true
        impersonate := none
        impersonate_groups := [] }

/-! ### Helper lemmas about the `HashMap` model -/

/-- Replacing the value stored at key `k` does not change whether an entry
matches key `k`. -/
theorem ChildMap.key_pred_comp_replace (k : K8sType) (c : ChildConfig) :
    ((fun p : K8sType × ChildConfig => decide (p.1 = k)) ∘
      fun p : K8sType × ChildConfig => if p.1 = k then (p.1, c) else p) =
      fun p : K8sType × ChildConfig => decide (p.1 = k) := by
  funext p
  by_cases hp : p.1 = k <;> simp [hp]

/-- Looking up the key just inserted yields the value just inserted. -/
theorem ChildMap.get_insert (m : ChildMap) (k : K8sType) (c : ChildConfig) :
    (m.insert k c).get k = some c := by
  unfold ChildMap.insert
  split
  next ha =>
    unfold ChildMap.get
    rw [List.find?_map, ChildMap.key_pred_comp_replace]
    have hs : (m.find? fun p => decide (p.1 = k)).isSome := by
      rw [List.find?_isSome]
      obtain ⟨a, hmem, hpa⟩ := List.any_eq_true.mp ha
      exact ⟨a, hmem, hpa⟩
    obtain ⟨a, ha'⟩ := Option.isSome_iff_exists.mp hs
    have hk : a.1 = k := by simpa using List.find?_some ha'
    rw [ha']
    simp [hk]
  next ha =>
    unfold ChildMap.get
    rw [List.find?_append]
    have hnone : m.find? (fun p => decide (p.1 = k)) = none := by
      rw [List.find?_eq_none]
      intro x hx hpx
      exact ha (List.any_eq_true.mpr ⟨x, hx, hpx⟩)
    rw [hnone]
    simp

/-- When the key is already present, `insert` preserves the number of
entries matching that key. -/
theorem ChildMap.keyCount_insert_of_pos (m : ChildMap) (k : K8sType) (c : ChildConfig)
    (h : 0 < m.keyCount k) : (m.insert k c).keyCount k = m.keyCount k := by
  unfold ChildMap.keyCount at h ⊢
  have ha : m.any (fun p => decide (p.1 = k)) = true :=
    List.any_eq_true.mpr (List.countP_pos_iff.mp h)
  unfold ChildMap.insert
  rw [if_pos ha, List.countP_map, ChildMap.key_pred_comp_replace]

/-- When the key is absent, `insert` produces exactly one entry for it. -/
theorem ChildMap.keyCount_insert_of_zero (m : ChildMap) (k : K8sType) (c : ChildConfig)
    (h : m.keyCount k = 0) : (m.insert k c).keyCount k = 1 := by
  unfold ChildMap.keyCount at h ⊢
  have ha : ¬ (m.any (fun p => decide (p.1 = k)) = true) := by
    intro ha
    obtain ⟨a, hmem, hpa⟩ := List.any_eq_true.mp ha
    exact (List.countP_eq_zero.mp h a hmem) hpa
  unfold ChildMap.insert
  rw [if_neg ha, List.countP_append, h]
  simp

/-- An entry list with pairwise-distinct keys (the `HashMap` representation
invariant) holds at most one entry per key. -/
theorem ChildMap.keyCount_le_one (m : ChildMap) (k : K8sType)
    (h : (m.map Prod.fst).Nodup) : m.keyCount k ≤ 1 := by
  induction m with
  | nil => simp [ChildMap.keyCount]
  | cons p m ih =>
    rw [List.map_cons, List.nodup_cons] at h
    obtain ⟨hnot, hnd⟩ := h
    unfold ChildMap.keyCount at ih ⊢
    by_cases hp : p.1 = k
    · rw [List.countP_cons_of_pos _ _ (by simp [hp])]
      have h0 : m.countP (fun q => decide (q.1 = k)) = 0 := by
        rw [List.countP_eq_zero]
        intro a hmem hpa
        have hak : a.1 = k := by simpa using hpa
        exact hnot (List.mem_map.mpr ⟨a, hmem, by rw [hak, hp]⟩)
      rw [h0]
    · rw [List.countP_cons_of_neg _ _ (by simp [hp])]
      exact ih hnd

/-! ### Claims -/

/-- Claim C4: `format_api_version()` returns `version` when `group` is the
empty string, and `"{group}/{version}"` when `group` is non-empty. -/
theorem format_api_version_spec (t : K8sType) :
    (t.group = "" → t.format_api_version = t.version) ∧
    (t.group ≠ "" → t.format_api_version = t.group ++ "/" ++ t.version) := by
  constructor
  · intro h
    have hb : t.group.isEmpty = true := by rw [h]; rfl
    unfold K8sType.format_api_version
    rw [if_pos hb]
  · intro h
    have hb : ¬ (t.group.isEmpty = true) := fun hb => h ((String.isEmpty_iff t.group).mp hb)
    unfold K8sType.format_api_version
    rw [if_neg hb]

/-- Witness for C4: the empty-group case at `K8sType.pod` and the
non-empty-group case at an `apps/v1` Deployment type. -/
theorem format_api_version_spec_witness :
    K8sType.pod.format_api_version = K8sType.pod.version ∧
    (K8sType.new "apps" "v1" "Deployment" "deployments").format_api_version =
      "apps" ++ "/" ++ "v1" :=
  ⟨(format_api_version_spec K8sType.pod).1 rfl,
   (format_api_version_spec (K8sType.new "apps" "v1" "Deployment" "deployments")).2
     (by decide)⟩

/-- Claim C5: the `Display` rendering of a `K8sType` equals
`format_api_version()` with `"/"` and `plural_kind` appended. -/
theorem display_eq_api_version_plural (t : K8sType) :
    t.displayFmt = t.format_api_version ++ "/" ++ t.plural_kind := by
  unfold K8sType.displayFmt K8sType.format_api_version
  cases h : t.group.isEmpty <;> simp [h]

/-- Claim C7: `OperatorConfig::new` initializes all defaults: port 8080,
metrics and health enabled, no namespace, the two default label names, and
an empty child-type map. -/
theorem operator_config_new_defaults (name : String) (parent : K8sType) :
    (OperatorConfig.new name parent).server_port = 8080 ∧
    (OperatorConfig.new name parent).expose_metrics = true ∧
    (OperatorConfig.new name parent).expose_health = true ∧
    (OperatorConfig.new name parent).«namespace» = none ∧
    (OperatorConfig.new name parent).tracking_label_name = "app.kubernetes.io/instance" ∧
    (OperatorConfig.new name parent).ownership_label_name = "app.kubernetes.io/managed-by" ∧
    (OperatorConfig.new name parent).child_types = [] :=
  ⟨rfl, rfl, rfl, rfl, rfl, rfl, rfl⟩

/-- Claim C9: `K8sType::pod()` has exactly the literal fields
`("", "v1", "Pod", "pods")`. -/
theorem pod_literal_fields :
    K8sType.pod.group = "" ∧ K8sType.pod.version = "v1" ∧
    K8sType.pod.kind = "Pod" ∧ K8sType.pod.plural_kind = "pods" :=
  ⟨rfl, rfl, rfl, rfl⟩

/-- Claim C6: inserting twice under the same `K8sType` key leaves exactly one
entry for that key, holding the value from the most recent call. The
hypothesis is the `HashMap` representation invariant: keys are pairwise
distinct. -/
theorem with_child_last_write_wins (cfg : OperatorConfig) (k : K8sType)
    (c1 c2 : ChildConfig) (h : (cfg.child_types.map Prod.fst).Nodup) :
    ((cfg.with_child k c1).with_child k c2).child_types.keyCount k = 1 ∧
    ((cfg.with_child k c1).with_child k c2).child_types.get k = some c2 := by
  have hm : ((cfg.with_child k c1).with_child k c2).child_types =
      (cfg.child_types.insert k c1).insert k c2 := rfl
  rw [hm]
  have h1 : (cfg.child_types.insert k c1).keyCount k = 1 := by
    rcases Nat.eq_zero_or_pos (cfg.child_types.keyCount k) with h0 | hpos
    · exact ChildMap.keyCount_insert_of_zero _ _ _ h0
    · rw [ChildMap.keyCount_insert_of_pos _ _ _ hpos]
      exact Nat.le_antisymm (ChildMap.keyCount_le_one _ _ h) hpos
  refine ⟨?_, ChildMap.get_insert _ _ _⟩
  rw [ChildMap.keyCount_insert_of_pos _ _ _ (by rw [h1]; exact Nat.one_pos)]
  exact h1

/-- Witness for C6: inserting two different policies for the `Service` type
into a fresh `OperatorConfig` leaves one entry whose value is the second. -/
theorem with_child_last_write_wins_witness :
    (((OperatorConfig.new "x" K8sType.pod).with_child K8sType.service
        ChildConfig.recreate).with_child K8sType.service
        ChildConfig.replace).child_types.keyCount K8sType.service = 1 ∧
    (((OperatorConfig.new "x" K8sType.pod).with_child K8sType.service
        ChildConfig.recreate).with_child K8sType.service
        ChildConfig.replace).child_types.get K8sType.service =
      some ChildConfig.replace :=
  with_child_last_write_wins (OperatorConfig.new "x" K8sType.pod) K8sType.service
    ChildConfig.recreate ChildConfig.replace (by simp [OperatorConfig.new])

/-- Claim C10: every fluent setter of `OperatorConfig` changes only its named
field. `within_namespace` sets `namespace` to `Some` and nothing else;
`with_child` touches only `child_types`; `expose_health`, `expose_metrics`
and `server_port` each set only their own field. In particular every setter
other than `within_namespace` preserves `namespace`, and `within_namespace`
always produces `Some`, so no setter can return `namespace` to `None`. -/
theorem setters_frame (cfg : OperatorConfig) (ns : String) (k : K8sType)
    (c : ChildConfig) (bh bm : Bool) (port : Nat) :
    ((cfg.within_namespace ns).«namespace» = some ns ∧
     (cfg.within_namespace ns).parent = cfg.parent ∧
     (cfg.within_namespace ns).child_types = cfg.child_types ∧
     (cfg.within_namespace ns).operator_name = cfg.operator_name ∧
     (cfg.within_namespace ns).tracking_label_name = cfg.tracking_label_name ∧
     (cfg.within_namespace ns).ownership_label_name = cfg.ownership_label_name ∧
     (cfg.within_namespace ns).server_port = cfg.server_port ∧
     (cfg.within_namespace ns).expose_metrics = cfg.expose_metrics ∧
     (cfg.within_namespace ns).expose_health = cfg.expose_health) ∧
    ((cfg.with_child k c).child_types = cfg.child_types.insert k c ∧
     (cfg.with_child k c).parent = cfg.parent ∧
     (cfg.with_child k c).«namespace» = cfg.«namespace» ∧
     (cfg.with_child k c).operator_name = cfg.operator_name ∧
     (cfg.with_child k c).tracking_label_name = cfg.tracking_label_name ∧
     (cfg.with_child k c).ownership_label_name = cfg.ownership_label_name ∧
     (cfg.with_child k c).server_port = cfg.server_port ∧
     (cfg.with_child k c).expose_metrics = cfg.expose_metrics ∧
     (cfg.with_child k c).expose_health = cfg.expose_health) ∧
    ((cfg.set_expose_health bh).expose_health = bh ∧
     (cfg.set_expose_health bh).parent = cfg.parent ∧
     (cfg.set_expose_health bh).child_types = cfg.child_types ∧
     (cfg.set_expose_health bh).«namespace» = cfg.«namespace» ∧
     (cfg.set_expose_health bh).operator_name = cfg.operator_name ∧
     (cfg.set_expose_health bh).tracking_label_name = cfg.tracking_label_name ∧
     (cfg.set_expose_health bh).ownership_label_name = cfg.ownership_label_name ∧
     (cfg.set_expose_health bh).server_port = cfg.server_port ∧
     (cfg.set_expose_health bh).expose_metrics = cfg.expose_metrics) ∧
    ((cfg.set_expose_metrics bm).expose_metrics = bm ∧
     (cfg.set_expose_metrics bm).parent = cfg.parent ∧
     (cfg.set_expose_metrics bm).child_types = cfg.child_types ∧
     (cfg.set_expose_metrics bm).«namespace» = cfg.«namespace» ∧
     (cfg.set_expose_metrics bm).operator_name = cfg.operator_name ∧
     (cfg.set_expose_metrics bm).tracking_label_name = cfg.tracking_label_name ∧
     (cfg.set_expose_metrics bm).ownership_label_name = cfg.ownership_label_name ∧
     (cfg.set_expose_metrics bm).server_port = cfg.server_port ∧
     (cfg.set_expose_metrics bm).expose_health = cfg.expose_health) ∧
    ((cfg.set_server_port port).server_port = port ∧
     (cfg.set_server_port port).parent = cfg.parent ∧
     (cfg.set_server_port port).child_types = cfg.child_types ∧
     (cfg.set_server_port port).«namespace» = cfg.«namespace» ∧
     (cfg.set_server_port port).operator_name = cfg.operator_name ∧
     (cfg.set_server_port port).tracking_label_name = cfg.tracking_label_name ∧
     (cfg.set_server_port port).ownership_label_name = cfg.ownership_label_name ∧
     (cfg.set_server_port port).expose_metrics = cfg.expose_metrics ∧
     (cfg.set_server_port port).expose_health = cfg.expose_health) :=
  ⟨⟨rfl, rfl, rfl, rfl, rfl, rfl, rfl, rfl, rfl⟩,
   ⟨rfl, rfl, rfl, rfl, rfl, rfl, rfl, rfl, rfl⟩,
   ⟨rfl, rfl, rfl, rfl, rfl, rfl, rfl, rfl, rfl⟩,
   ⟨rfl, rfl, rfl, rfl, rfl, rfl, rfl, rfl, rfl⟩,
   ⟨rfl, rfl, rfl, rfl, rfl, rfl, rfl, rfl, rfl⟩⟩

/-- Claim C1: with the token file containing `"abc123"` and the CA file
absent, `from_service_account` succeeds with bearer-header credentials, no
CA data, the in-cluster endpoint, SSL verification on, and no
impersonation. -/
theorem from_service_account_abc123_ok (fs : FileSystem) (ua : String)
    (htok : fs.files SERVICE_ACCOUNT_TOKEN_PATH = some "abc123")
    (hca : fs.files SERVICE_ACCOUNT_CA_PATH = none) :
    from_service_account fs ua = Except.ok
      { api_server_endpoint := "https://kubernetes.default.svc"
        credentials := Credentials.Header "Bearer abc123"
        ca_data := none
        user_agent := ua
        verify_ssl_certs := true
        impersonate := none
        impersonate_groups := [] } := by
  unfold from_service_account
  rw [htok, hca]
  rfl

/-- A filesystem holding only the service-account token file, with contents
`"abc123"`. -/
def fsTokenOnly : FileSystem :=
  ⟨fun p => if p = SERVICE_ACCOUNT_TOKEN_PATH then some "abc123" else none⟩

/-- Witness for C1 at the concrete filesystem `fsTokenOnly`. -/
theorem from_service_account_abc123_ok_witness :
    from_service_account fsTokenOnly "test-agent" = Except.ok
      { api_server_endpoint := "https://kubernetes.default.svc"
        credentials := Credentials.Header "Bearer abc123"
        ca_data := none
        user_agent := "test-agent"
        verify_ssl_certs := true
        impersonate := none
        impersonate_groups := [] } :=
  from_service_account_abc123_ok fsTokenOnly "test-agent" rfl rfl

/-- Claim C2: with the token file missing, `from_service_account` propagates
the "not found" I/O error and produces no `ClientConfig`. -/
theorem from_service_account_missing_token (fs : FileSystem) (ua : String)
    (htok : fs.files SERVICE_ACCOUNT_TOKEN_PATH = none) :
    from_service_account fs ua = Except.error IoErrorKind.notFound := by
  unfold from_service_account
  rw [htok]

/-- A filesystem with no files at all. -/
def fsEmpty : FileSystem := ⟨fun _ => none⟩

/-- Witness for C2 at the empty filesystem. -/
theorem from_service_account_missing_token_witness :
    from_service_account fsEmpty "test-agent" = Except.error IoErrorKind.notFound :=
  from_service_account_missing_token fsEmpty "test-agent" rfl

/-- Claim C3: on every successful `from_service_account` call, `ca_data` is
`Some(File(path))` for the fixed in-cluster CA path exactly when that path
exists, and `None` otherwise; only the path is stored, never the file
contents. -/
theorem from_service_account_ca_data (fs : FileSystem) (ua : String)
    (cfg : ClientConfig) (h : from_service_account fs ua = Except.ok cfg) :
    cfg.ca_data =
      if (fs.files SERVICE_ACCOUNT_CA_PATH).isSome then
        some (CAData.File SERVICE_ACCOUNT_CA_PATH)
      else none := by
  unfold from_service_account at h
  cases htok : fs.files SERVICE_ACCOUNT_TOKEN_PATH with
  | none =>
    rw [htok] at h
    exact absurd h (by simp)
  | some tok =>
    rw [htok] at h
    have h2 := Except.ok.inj h
    rw [← h2]

/-- A filesystem holding both the token file and the CA file. -/
def fsTokenAndCa : FileSystem :=
  ⟨fun p =>
    if p = SERVICE_ACCOUNT_TOKEN_PATH then some "t"
    else if p = SERVICE_ACCOUNT_CA_PATH then some "certdata"
    else none⟩

/-- Witness for C3 in both directions: with the CA file present the result
references the CA path, and with it absent the result holds no CA data. -/
theorem from_service_account_ca_data_witness :
    (({ api_server_endpoint := "https://kubernetes.default.svc"
        credentials := Credentials.Header "Bearer t"
        ca_data := some (CAData.File SERVICE_ACCOUNT_CA_PATH)
        user_agent := "ua"
        verify_ssl_certs := true
        impersonate := none
        impersonate_groups := [] } : ClientConfig).ca_data =
      if (fsTokenAndCa.files SERVICE_ACCOUNT_CA_PATH).isSome then
        some (CAData.File SERVICE_ACCOUNT_CA_PATH)
      else none) ∧
    (({ api_server_endpoint := "https://kubernetes.default.svc"
        credentials := Credentials.Header "Bearer abc123"
        ca_data := none
        user_agent := "ua"
        verify_ssl_certs := true
        impersonate := none
        impersonate_groups := [] } : ClientConfig).ca_data =
      if (fsTokenOnly.files SERVICE_ACCOUNT_CA_PATH).isSome then
        some (CAData.File SERVICE_ACCOUNT_CA_PATH)
      else none) :=
  ⟨from_service_account_ca_data fsTokenAndCa "ua" _ rfl,
   from_service_account_ca_data fsTokenOnly "ua" _ rfl⟩

/-- Claim C8: the token-file contents are embedded verbatim into the
credentials — `Header("Bearer " ++ s)` — with no trimming of trailing
whitespace or newlines. -/
theorem from_service_account_token_verbatim (fs : FileSystem) (ua s : String)
    (htok : fs.files SERVICE_ACCOUNT_TOKEN_PATH = some s) :
    (from_service_account fs ua).map ClientConfig.credentials =
      Except.ok (Credentials.Header ("Bearer " ++ s)) := by
  unfold from_service_account
  rw [htok]
  rfl

/-- A filesystem whose token file ends in a newline. -/
def fsNewline : FileSystem :=
  ⟨fun p => if p = SERVICE_ACCOUNT_TOKEN_PATH then some "abc\n" else none⟩

/-- Witness for C8: a token with a trailing newline is kept verbatim,
newline included. -/
theorem from_service_account_token_verbatim_witness :
    (from_service_account fsNewline "ua").map ClientConfig.credentials =
      Except.ok (Credentials.Header "Bearer abc\n") :=
  from_service_account_token_verbatim fsNewline "ua" "abc\n" rfl

end Roperator
